import Mathlib

/-
Verification of the scripted browser-flow execution engine shared by the
13 scenario scripts under testsprite_tests/.  Every script instantiates the
same scaffold (checked against each file; the line numbers cited below are
those of TC003_Password_Recovery_Flow.py, identical in the other twelve):

  lines 6-8    pw = None; browser = None; context = None
  lines 10-30  try: pw = ...start(); browser = pw.chromium.launch(headless=True,
               args=[window-size, disable-dev-shm-usage, ipc=host, single-process]);
               context = browser.new_context(); context.set_default_timeout(5000);
               page = context.new_page()
  lines 33-46  page.goto(url, wait_until="commit", timeout=10000); then a
               try/except-pass wait_for_load_state("domcontentloaded", 3000)
               for the page and for every attached frame
  body steps   frame = context.pages[-1]; elem = frame.locator(xpath).nth(0);
               page.wait_for_timeout(3000); elem.fill(v) / elem.click(timeout=5000)
               -- or page.goto(url, timeout=10000); asyncio.sleep(3)
               -- or page.mouse.wheel(dx, dy)
  assertions   sequential expect(...).to_be_visible(timeout=...) calls, in some
               scripts wrapped in try/except AssertionError with a re-raise
  lines 174-80 finally: if context: context.close(); if browser: browser.close();
               if pw: pw.stop()
-/

namespace NestTask

/-- Browser launch configuration (source lines 15-23). -/
structure LaunchConfig where
  headless : Bool
  args : List String
deriving DecidableEq, Repr

/-- The literal configuration every script passes to chromium.launch. -/
def chromiumLaunchConfig : LaunchConfig :=
  { headless := true
    args := ["--window-size=1280,720", "--disable-dev-shm-usage",
             "--ipc=host", "--single-process"] }

/-- Acquisition-phase primitive calls, in the order the scripts attempt them. -/
inductive AcqEvent
  | startSession
  | launchBrowser (cfg : LaunchConfig)
  | newContext
  | setDefaultTimeout (ms : Nat)
  | newPage
deriving DecidableEq, Repr

/-- Release-phase primitive calls (the bodies of the finally block). -/
inductive RelEvent
  | closeContext
  | closeBrowser
  | stopSession
deriving DecidableEq, Repr

/-- Fault model for acquisition: whether each primitive call succeeds. -/
structure AcqEnv where
  startOk : Bool
  launchOk : Bool
  newContextOk : Bool
  newPageOk : Bool
deriving DecidableEq, Fintype

/-- Which handles are non-null after the acquisition phase.  `pw`, `browser`
and `ctx` mirror the three variables initialised to None on lines 6-8; `page`
is the local bound on line 30 (never individually released). -/
structure Handles where
  pw : Bool
  browser : Bool
  ctx : Bool
  page : Bool
deriving DecidableEq, Fintype

/-- Fault model for teardown: whether each release call succeeds. -/
structure RelEnv where
  closeContextOk : Bool
  closeBrowserOk : Bool
  stopOk : Bool
deriving DecidableEq, Fintype

/-- The full attempted acquisition sequence (source lines 12-30):
start, launch, new_context, set_default_timeout(5000), new_page. -/
def fullAcquisition : List AcqEvent :=
  [AcqEvent.startSession, AcqEvent.launchBrowser chromiumLaunchConfig,
   AcqEvent.newContext, AcqEvent.setDefaultTimeout 5000, AcqEvent.newPage]

/-- Acquisition (source lines 12-30): each call is attempted in order; a
failing call raises, leaving the later handles None.  Returns the handle
state, the attempted calls, and whether the whole phase succeeded.
set_default_timeout is a synchronous configuration call that cannot fail. -/
def acquire (e : AcqEnv) : Handles × List AcqEvent × Bool :=
  if e.startOk = false then
    (⟨false, false, false, false⟩, [AcqEvent.startSession], false)
  else if e.launchOk = false then
    (⟨true, false, false, false⟩,
     [AcqEvent.startSession, AcqEvent.launchBrowser chromiumLaunchConfig], false)
  else if e.newContextOk = false then
    (⟨true, true, false, false⟩,
     [AcqEvent.startSession, AcqEvent.launchBrowser chromiumLaunchConfig,
      AcqEvent.newContext], false)
  else if e.newPageOk = false then
    (⟨true, true, true, false⟩, fullAcquisition, false)
  else
    (⟨true, true, true, true⟩, fullAcquisition, true)

/-- Teardown (source lines 174-180).  The finally block is three sequential
null-checked statements; an exception raised by one of them propagates out of
the finally block, so the remaining statements are not reached.  Returns the
attempted release calls in order and whether teardown itself raised. -/
def release (h : Handles) (e : RelEnv) : List RelEvent × Bool :=
  if h.ctx ∧ e.closeContextOk = false then ([RelEvent.closeContext], true)
  else
    let l1 := if h.ctx then [RelEvent.closeContext] else []
    if h.browser ∧ e.closeBrowserOk = false then (l1 ++ [RelEvent.closeBrowser], true)
    else
      let l2 := l1 ++ (if h.browser then [RelEvent.closeBrowser] else [])
      if h.pw ∧ e.stopOk = false then (l2 ++ [RelEvent.stopSession], true)
      else (l2 ++ (if h.pw then [RelEvent.stopSession] else []), false)

/-- The nil-safe reverse-order release sequence: the non-null handles among
context, browser, session, in that fixed order. -/
def reverseOrderRelease (h : Handles) : List RelEvent :=
  (if h.ctx then [RelEvent.closeContext] else []) ++
  (if h.browser then [RelEvent.closeBrowser] else []) ++
  (if h.pw then [RelEvent.stopSession] else [])

/-- Fault model for one whole scenario run: acquisition outcomes, whether the
scenario body (steps and assertions) raises, and release outcomes. -/
structure ScenarioEnv where
  acq : AcqEnv
  bodyRaises : Bool
  rel : RelEnv
deriving DecidableEq, Fintype

structure RunResult where
  acqEvents : List AcqEvent
  relEvents : List RelEvent
  teardownRaised : Bool
deriving DecidableEq, Repr

/-- One scenario run through the try/finally scaffold: acquisition, then the
body (which runs only if acquisition succeeded, and either completes or
raises), then — on every exit path, because the release statements sit in a
finally block — teardown over exactly the handles that were acquired.  The
body's fate cannot affect which releases are attempted. -/
def runScenario (e : ScenarioEnv) : RunResult :=
  let a := acquire e.acq
  let r := release a.1 e.rel
  { acqEvents := a.2.1, relEvents := r.1, teardownRaised := r.2 }

/-- Outcome of one wait_for_load_state call as the driver reports it:
it either reaches the milestone, times out, or fails with a driver error
(both failure modes are async_api.Error in the driver). -/
inductive WaitOutcome
  | reached
  | timedOut
  | driverErrored
deriving DecidableEq, Fintype, Repr

/-- wait_for_load_state("domcontentloaded", timeout=3000): succeeds or
raises a driver error (source lines 37 and 44). -/
def waitForLoadState : WaitOutcome → Except String Unit
  | WaitOutcome.reached => Except.ok ()
  | WaitOutcome.timedOut => Except.error "Timeout 3000ms exceeded waiting for domcontentloaded"
  | WaitOutcome.driverErrored => Except.error "driver error"

/-- The try/except-pass guard around one wait (source lines 36-39, 43-46):
every async_api.Error is swallowed. -/
def guardedWait (o : WaitOutcome) : Except String Unit :=
  match waitForLoadState o with
  | Except.ok _ => Except.ok ()
  | Except.error _ => Except.ok ()

/-- The Frame Settle Waiter (source lines 35-46): a guarded wait on the page,
then a guarded wait on every frame attached at call time, in discovery order;
an error from either part would propagate out. -/
def frameSettleWaiter (pageOutcome : WaitOutcome) (frameOutcomes : List WaitOutcome) :
    Except String Unit :=
  match guardedWait pageOutcome with
  | Except.error e => Except.error e
  | Except.ok _ =>
    match frameOutcomes.foldlM (fun _ o => guardedWait o) () with
    | Except.error e => Except.error e
    | Except.ok _ => Except.ok ()

/-- Locator spec: an xpath-style structural path plus the ordinal index
passed to .nth (the scripts always use .nth(0)). -/
structure LocSpec where
  path : String
  index : Nat
deriving DecidableEq, Repr

/-- The step forms that occur in the scenario bodies:
fillStep/clickStep (frame = context.pages[-1]; elem = frame.locator(p).nth(i);
page.wait_for_timeout(3000); elem.fill(v) or elem.click(timeout=5000)),
gotoStep (page.goto(url, timeout=10000); asyncio.sleep(3) — wait_until omitted),
wheelStep (page.mouse.wheel(dx, dy)). -/
inductive ScriptStep
  | fillStep (spec : LocSpec) (value : String)
  | clickStep (spec : LocSpec)
  | gotoStep (url : String)
  | wheelStep (dx dy : Int)
deriving DecidableEq, Repr

/-- Load milestones a navigation can wait for.  The driver's documented
default, used when wait_until is omitted, is the full load milestone. -/
inductive Milestone
  | commit
  | load
  | domcontentloaded
deriving DecidableEq, Repr

/-- Backend oracle: the element ids a locator spec matches in the live DOM at
a given step index (resolution is a query, total, possibly empty), and whether
the selected element becomes actionable within the action's timeout. -/
structure Backend where
  domAt : Nat → LocSpec → List Nat
  actionableWithin : Nat → LocSpec → Bool

/-- Primitive events a step execution emits, in order. -/
inductive Event
  | pickCurrentPage (pageId : Option Nat)
  | resolved (spec : LocSpec) (found : List Nat)
  | settleDelay (ms : Nat)
  | filled (value : String) (timeoutMs : Nat)
  | clicked (timeoutMs : Nat)
  | navigated (url : String) (waitUntil : Milestone) (timeoutMs : Nat)
  | slept (seconds : Nat)
  | wheeled (dx dy : Int)
deriving DecidableEq, Repr

/-- Failures the Bounded Action Executor can surface. -/
inductive StepError
  | actionTimeout (spec : LocSpec) (timeoutMs : Nat)
deriving DecidableEq, Repr

/-- Whether a locator-based action succeeds: the matched set must be nonempty
and the selected element actionable within the timeout. -/
def locatorActionOk (b : Backend) (i : Nat) (spec : LocSpec) : Bool :=
  !(b.domAt i spec).isEmpty && b.actionableWithin i spec

/-- Execute one step at step index i against the context's current page list.
fill has no explicit timeout in the source, so the context default of 5000 ms
(set_default_timeout on line 27) applies; click passes timeout=5000 explicitly;
goto passes timeout=10000 and omits wait_until, so the driver default (the full
load milestone) applies, and is followed by asyncio.sleep(3); mouse.wheel
dispatches immediately.  Resolution is performed fresh against the DOM at this
step index; an empty resolution is not an error — the step fails only when the
action times out. -/
def execStep (b : Backend) (ps : List Nat) (i : Nat) :
    ScriptStep → List Event × Option StepError
  | ScriptStep.fillStep spec v =>
    let m := b.domAt i spec
    let pre := [Event.pickCurrentPage ps.getLast?, Event.resolved spec m,
                Event.settleDelay 3000]
    if locatorActionOk b i spec then (pre ++ [Event.filled v 5000], none)
    else (pre, some (StepError.actionTimeout spec 5000))
  | ScriptStep.clickStep spec =>
    let m := b.domAt i spec
    let pre := [Event.pickCurrentPage ps.getLast?, Event.resolved spec m,
                Event.settleDelay 3000]
    if locatorActionOk b i spec then (pre ++ [Event.clicked 5000], none)
    else (pre, some (StepError.actionTimeout spec 5000))
  | ScriptStep.gotoStep url =>
    ([Event.navigated url Milestone.load 10000, Event.slept 3], none)
  | ScriptStep.wheelStep dx dy =>
    ([Event.wheeled dx dy], none)

/-- Effect of one step on the context's page list.  No step form in any of the
13 scripts invokes new_page (the single new_page call sits in the acquisition
block) or any other page-opening primitive, so every step leaves the page list
unchanged. -/
def stepPagesEffect : ScriptStep → List Nat → List Nat
  | ScriptStep.fillStep _ _, ps => ps
  | ScriptStep.clickStep _, ps => ps
  | ScriptStep.gotoStep _, ps => ps
  | ScriptStep.wheelStep _ _, ps => ps

/-- Run a step list sequentially from step index i: each step is attempted
exactly once, in declared order; the first step error aborts the remainder
(the raised exception propagates to the finally block). -/
def runSteps (b : Backend) : List Nat → Nat → List ScriptStep → List Event × Option StepError
  | _, _, [] => ([], none)
  | ps, i, s :: rest =>
    let r := execStep b ps i s
    match r.2 with
    | some e => (r.1, some e)
    | none =>
      let r2 := runSteps b (stepPagesEffect s ps) (i + 1) rest
      (r.1 ++ r2.1, r2.2)

/-- The context's page list after running a list of steps. -/
def pagesAfter (steps : List ScriptStep) (ps : List Nat) : List Nat :=
  steps.foldl (fun acc s => stepPagesEffect s acc) ps

/-- The current-page reads (context.pages[-1]) occurring in a trace. -/
def pickedPages (tr : List Event) : List (Option Nat) :=
  tr.filterMap fun ev =>
    match ev with
    | Event.pickCurrentPage q => some q
    | _ => none

/-- What follows a navigation call in the source: the initial goto of every
scenario is followed by the Frame Settle Waiter block; every mid-scenario goto
is followed by asyncio.sleep(3). -/
inductive FollowUp
  | settleWaiter
  | sleepSeconds (n : Nat)
deriving DecidableEq, Repr

/-- One page.goto call as written in the source: url, the milestone waited on
(commit when wait_until="commit" is passed, the driver-default load milestone
when omitted), its timeout, and what follows it. -/
structure NavCall where
  url : String
  waitUntil : Milestone
  timeoutMs : Nat
  followUp : FollowUp
deriving DecidableEq, Repr

/-- All page.goto calls of all 13 scripts, in source order per script. -/
def scenarioNavs : List (String × List NavCall) :=
  [("TC003_Password_Recovery_Flow",
    [⟨"http://localhost:5174", Milestone.commit, 10000, FollowUp.settleWaiter⟩,
     ⟨"http://localhost:5174/", Milestone.load, 10000, FollowUp.sleepSeconds 3⟩,
     ⟨"http://localhost:5174/", Milestone.load, 10000, FollowUp.sleepSeconds 3⟩,
     ⟨"http://localhost:5174/", Milestone.load, 10000, FollowUp.sleepSeconds 3⟩]),
   ("TC003_Password_Reset_Flow",
    [⟨"http://localhost:5173", Milestone.commit, 10000, FollowUp.settleWaiter⟩]),
   ("TC004_Role_Based_Access_Control_Enforcement",
    [⟨"http://localhost:5173", Milestone.commit, 10000, FollowUp.settleWaiter⟩]),
   ("TC007_Delete_Task",
    [⟨"http://localhost:5173", Milestone.commit, 10000, FollowUp.settleWaiter⟩]),
   ("TC008_Academic_Course_and_Routine_Management_CRUD",
    [⟨"http://localhost:5174", Milestone.commit, 10000, FollowUp.settleWaiter⟩]),
   ("TC009_Task_Deadline_Notification_Trigger",
    [⟨"http://localhost:5173", Milestone.commit, 10000, FollowUp.settleWaiter⟩]),
   ("TC010_Announcement_Creation_and_Section_based_Filtering",
    [⟨"http://localhost:5174", Milestone.commit, 10000, FollowUp.settleWaiter⟩]),
   ("TC012_Super_Admin_Audit_Logs_and_Admin_Management",
    [⟨"http://localhost:5174", Milestone.commit, 10000, FollowUp.settleWaiter⟩]),
   ("TC016_Offline_Mode_Data_Accessibility",
    [⟨"http://localhost:5173", Milestone.commit, 10000, FollowUp.settleWaiter⟩]),
   ("TC016_Performance_Under_Large_Data_Volumes",
    [⟨"http://localhost:5174", Milestone.commit, 10000, FollowUp.settleWaiter⟩]),
   ("TC017_Offline_Support_and_UI_Animation_Verification",
    [⟨"http://localhost:5174", Milestone.commit, 10000, FollowUp.settleWaiter⟩]),
   ("TC018_Data_Security_Enforcement_via_Row_Level_Security",
    [⟨"http://localhost:5173", Milestone.commit, 10000, FollowUp.settleWaiter⟩]),
   ("TC018_Security_Data_Privacy_and_Backend_Access_Controls",
    [⟨"http://localhost:5174", Milestone.commit, 10000, FollowUp.settleWaiter⟩,
     ⟨"http://localhost:5174", Milestone.load, 10000, FollowUp.sleepSeconds 3⟩])]

/-- One assertion of a final assertion block: its human-readable description
(the expected text) and whether the expect call passes against the final page
state. -/
structure ScenarioAssertion where
  desc : String
  passes : Bool
deriving DecidableEq, Repr

/-- The assertion blocks as written: a sequence of expect(...).to_be_visible
calls evaluated in order; the first failing call raises AssertionError with
that assertion's description, and the remaining calls never run.  Returns none
when every assertion passes, otherwise the diagnostic of the first failure. -/
def evalAssertions : List ScenarioAssertion → Option String
  | [] => none
  | a :: rest => if a.passes then evalAssertions rest else some a.desc

/-- How many assertions of the block actually get evaluated. -/
def evaluatedCount : List ScenarioAssertion → Nat
  | [] => 0
  | a :: rest => if a.passes then evaluatedCount rest + 1 else 1

/-- Errors that can come out of an assertion block: an AssertionError raised
by a failing expect, or a driver error raised while querying the page. -/
inductive PyError
  | assertionError (msg : String)
  | driverError (msg : String)
deriving DecidableEq, Repr

/-- The wrapped assertion blocks (e.g. TC003_Password_Reset_Flow lines 82-85):
try: expect(...) except AssertionError: raise AssertionError(scenarioMsg).
Only AssertionError is caught; a caught AssertionError is replaced by a new
one carrying the fixed scenario-level message; any other error propagates
unchanged. -/
def guardedAssertBlock (underlying : Option PyError) (scenarioMsg : String) :
    Option PyError :=
  match underlying with
  | none => none
  | some (PyError.assertionError _) => some (PyError.assertionError scenarioMsg)
  | some (PyError.driverError m) => some (PyError.driverError m)

/-- A backend in whose DOM no locator ever matches and nothing is actionable. -/
def trivialBackend : Backend :=
  { domAt := fun _ _ => [], actionableWithin := fun _ _ => false }

/-- A backend that always yields a nonempty match set and actionability, so
every locator-based action succeeds; the match sets still vary with the step
index through domf. -/
def succeedingBackend (domf : Nat → LocSpec → List Nat) : Backend :=
  { domAt := fun i s => 1 :: domf i s, actionableWithin := fun _ _ => true }

/-- Shape of a scenario's navigation sequence as amended: the first goto waits
only for the commit milestone and hands off to the Frame Settle Waiter; every
later goto omits wait_until (driver-default full load milestone) and is
followed by a fixed 3-second sleep. -/
def navShapeOk : List NavCall → Bool
  | [] => false
  | first :: rest =>
    decide (first.waitUntil = Milestone.commit) &&
    decide (first.followUp = FollowUp.settleWaiter) &&
    rest.all fun n =>
      decide (n.waitUntil = Milestone.load) && decide (n.followUp = FollowUp.sleepSeconds 3)

/-- Reference trace for a step list in which every step is attempted exactly
once, in declared order, with no retries: the concatenation of the per-step
event chunks. -/
def flatTrace (b : Backend) : List Nat → Nat → List ScriptStep → List Event
  | _, _, [] => []
  | ps, i, s :: rest => (execStep b ps i s).1 ++ flatTrace b (stepPagesEffect s ps) (i + 1) rest

end NestTask

namespace NestTask

/-- C1: for every scenario run and every exit path — normal completion, an
assertion failure or unexpected fault in the body (bodyRaises), or a fault
injected at any acquisition call (the AcqEnv flags) — teardown runs and, when
the release calls themselves succeed, releases exactly the non-null handles in
the fixed order context, then browser, then session; a never-acquired handle
is skipped as a no-op (teardown raises nothing), so the outer releases are
still attempted when an inner acquisition failed. -/
theorem teardown_reverse_order_nil_safe (a : AcqEnv) (bodyRaises : Bool) :
    (runScenario ⟨a, bodyRaises, ⟨true, true, true⟩⟩).relEvents
        = reverseOrderRelease (acquire a).1
      ∧ (runScenario ⟨a, bodyRaises, ⟨true, true, true⟩⟩).teardownRaised = false
      ∧ List.Sublist (runScenario ⟨a, bodyRaises, ⟨true, true, true⟩⟩).relEvents
          [RelEvent.closeContext, RelEvent.closeBrowser, RelEvent.stopSession]
      ∧ (!(acquire a).1.ctx || (acquire a).1.browser) = true
      ∧ (!(acquire a).1.browser || (acquire a).1.pw) = true := by
  revert a bodyRaises
  decide

/-- C2 counterexample: with every resource acquired and closing the context
raising, the browser is never closed and the session never stopped — the
release steps are not independently guarded. -/
theorem release_steps_not_independently_guarded :
    (runScenario ⟨⟨true, true, true, true⟩, false, ⟨false, true, true⟩⟩).relEvents
        = [RelEvent.closeContext]
      ∧ RelEvent.closeBrowser ∉
          (runScenario ⟨⟨true, true, true, true⟩, false, ⟨false, true, true⟩⟩).relEvents
      ∧ RelEvent.stopSession ∉
          (runScenario ⟨⟨true, true, true, true⟩, false, ⟨false, true, true⟩⟩).relEvents
      ∧ (runScenario ⟨⟨true, true, true, true⟩, false, ⟨false, true, true⟩⟩).teardownRaised
        = true := by
  decide

/-- C2 amended: each release step is guarded only by a null check, not by an
exception guard: the attempted releases always form a prefix of the nil-safe
reverse order, the whole sequence runs when no release call raises, and a
raise while closing the context aborts the finally block so that the browser
close and the session stop are not attempted. -/
theorem release_null_checked_but_abort_on_raise (h : Handles) (e : RelEnv)
    (pwA brA pgA cb cs : Bool) :
    List.IsPrefix (release h e).1 (reverseOrderRelease h)
      ∧ (release h ⟨true, true, true⟩).1 = reverseOrderRelease h
      ∧ (release h ⟨true, true, true⟩).2 = false
      ∧ release ⟨pwA, brA, true, pgA⟩ ⟨false, cb, cs⟩ = ([RelEvent.closeContext], true) := by
  revert h e pwA brA pgA cb cs
  decide

/-- C7: acquisition is attempted in the strict order start session, launch
browser (headless, fixed window size, shared-memory disabled, host IPC,
single process), open one context, set its default per-action timeout to
5000 ms, open one page; whatever call fails, the attempted prefix respects
that order, and when nothing fails the full sequence runs with exactly one
context and one page opened. -/
theorem acquisition_strict_order (e : AcqEnv) :
    List.IsPrefix (acquire e).2.1 fullAcquisition
      ∧ (acquire ⟨true, true, true, true⟩).2.1 = fullAcquisition
      ∧ (acquire ⟨true, true, true, true⟩).2.2 = true
      ∧ chromiumLaunchConfig.headless = true
      ∧ chromiumLaunchConfig.args
        = ["--window-size=1280,720", "--disable-dev-shm-usage", "--ipc=host",
           "--single-process"]
      ∧ fullAcquisition.count AcqEvent.newContext = 1
      ∧ fullAcquisition.count AcqEvent.newPage = 1
      ∧ fullAcquisition.count (AcqEvent.setDefaultTimeout 5000) = 1 := by
  revert e
  decide

/-- C3 counterexample: with three assertions of which the first two fail and
the third passes, the assertion block raises at the very first failure: its
diagnostic is exactly the first description (it does not enumerate the second
failure) and only one of the three assertions is ever evaluated — there is no
soft, record-and-continue semantics. -/
theorem no_soft_assertion_semantics :
    evalAssertions
        [⟨"first expected text", false⟩, ⟨"second expected text", false⟩,
         ⟨"third expected text", true⟩]
      = some "first expected text"
      ∧ evaluatedCount
          [⟨"first expected text", false⟩, ⟨"second expected text", false⟩,
           ⟨"third expected text", true⟩]
        = 1
      ∧ some "first expected text" ≠
          some "first expected text; second expected text" := by
  refine ⟨rfl, rfl, by decide⟩

/-- C3 amended: every assertion in the code is hard.  Assertions are
evaluated in declared order; when all pass the block returns no error; the
first failing assertion raises immediately with its own description as the
diagnostic, and the assertions after it — failing or passing — are never
evaluated. -/
theorem assertions_evaluated_in_order_all_hard (ds : List String) (d : String)
    (post : List ScenarioAssertion) :
    evalAssertions (ds.map fun s => ⟨s, true⟩) = none
      ∧ evalAssertions ((ds.map fun s => ⟨s, true⟩) ++ ⟨d, false⟩ :: post) = some d
      ∧ evaluatedCount ((ds.map fun s => ⟨s, true⟩) ++ ⟨d, false⟩ :: post)
        = ds.length + 1 := by
  induction ds with
  | nil => simp [evalAssertions, evaluatedCount]
  | cons hd tl ih =>
    refine ⟨?_, ?_, ?_⟩ <;>
      simp [evalAssertions, evaluatedCount, ih.1, ih.2.1, ih.2.2]

theorem guardedWait_ok (o : WaitOutcome) : guardedWait o = Except.ok () := by
  cases o <;> rfl

theorem settle_fold_ok (fs : List WaitOutcome) :
    List.foldlM (fun _ o => guardedWait o) () fs = Except.ok () := by
  induction fs with
  | nil => rfl
  | cons h t ih =>
    rw [List.foldlM_cons, guardedWait_ok h]
    exact ih

/-- C4: the Frame Settle Waiter never fails: whatever outcome the driver
reports for the page wait and for each of the attached frames — reached,
timed out, or driver error — every failure is swallowed, the waiter returns
normally, and the scenario proceeds to its next step (sequencing any
continuation after the waiter behaves exactly as that continuation alone). -/
theorem frame_settle_waiter_never_fails (p : WaitOutcome) (fs : List WaitOutcome)
    (k : Except String Unit) :
    frameSettleWaiter p fs = Except.ok ()
      ∧ (frameSettleWaiter p fs >>= fun _ => k) = k := by
  have h : frameSettleWaiter p fs = Except.ok () := by
    unfold frameSettleWaiter
    rw [guardedWait_ok p, settle_fold_ok fs]
  exact ⟨h, by rw [h]; rfl⟩

/-- C5 counterexample: the second navigation of TC003_Password_Recovery_Flow
(source line 96) omits wait_until, so it waits for the driver-default full
load milestone — not the commit milestone — and it is followed by a fixed
3-second sleep, not by the Frame Settle Waiter. -/
theorem midscenario_goto_not_commit :
    Option.bind ((scenarioNavs.map Prod.snd).get? 0) (fun l => l.get? 1)
        = some ⟨"http://localhost:5174/", Milestone.load, 10000, FollowUp.sleepSeconds 3⟩
      ∧ (scenarioNavs.map Prod.fst).get? 0 = some "TC003_Password_Recovery_Flow"
      ∧ Milestone.load ≠ Milestone.commit
      ∧ FollowUp.sleepSeconds 3 ≠ FollowUp.settleWaiter := by
  refine ⟨rfl, rfl, by decide, by decide⟩

/-- C5 amended: in every scenario, the initial navigation waits only for the
navigation-committed milestone and hands off to the Frame Settle Waiter;
every mid-scenario navigation waits for the driver-default full load
milestone and is followed by a fixed 3-second sleep instead. -/
theorem nav_milestones_amended :
    scenarioNavs.all (fun sn => navShapeOk sn.2) = true := by
  decide

theorem locatorActionOk_succeeding (domf : Nat → LocSpec → List Nat) (i : Nat)
    (spec : LocSpec) : locatorActionOk (succeedingBackend domf) i spec = true := by
  simp [locatorActionOk, succeedingBackend]

theorem execStep_succeeding_no_error (domf : Nat → LocSpec → List Nat)
    (ps : List Nat) (i : Nat) (s : ScriptStep) :
    (execStep (succeedingBackend domf) ps i s).2 = none := by
  cases s <;> simp [execStep, locatorActionOk_succeeding]

theorem runSteps_succeeding (domf : Nat → LocSpec → List Nat) :
    ∀ (steps : List ScriptStep) (ps : List Nat) (i : Nat),
      runSteps (succeedingBackend domf) ps i steps
        = (flatTrace (succeedingBackend domf) ps i steps, none) := by
  intro steps
  induction steps with
  | nil => intro ps i; rfl
  | cons s rest ih =>
    intro ps i
    have hne := execStep_succeeding_no_error domf ps i s
    simp [runSteps, flatTrace, hne, ih]

/-- C6 counterexample: the scroll step of TC007_Delete_Task (source line 97,
page.mouse.wheel(0, 200)) dispatches its action directly: its trace contains
no locator resolution and no 3000 ms settle delay, so not every step follows
the resolve-delay-act protocol. -/
theorem wheel_step_skips_protocol :
    execStep trivialBackend [0] 0 (ScriptStep.wheelStep 0 200)
        = ([Event.wheeled 0 200], none)
      ∧ Event.settleDelay 3000
          ∉ (execStep trivialBackend [0] 0 (ScriptStep.wheelStep 0 200)).1
      ∧ Event.resolved ⟨"xpath=html/body/div", 0⟩ []
          ∉ (execStep trivialBackend [0] 0 (ScriptStep.wheelStep 0 200)).1 := by
  refine ⟨rfl, by decide, by decide⟩

/-- C6 amended: the locator-based steps (fill, click) follow the fixed
protocol — read the current page, resolve the locator fresh, apply the
3000 ms settle delay, then act under the 5000 ms timeout — while navigate
and scroll steps perform their action directly (navigations followed by a
3-second sleep); steps execute strictly in declared order, sequentially,
exactly one attempt each with no implicit retry (the trace of a run in which
no step fails is exactly the concatenation of one event chunk per step, in
declared order). -/
theorem step_protocol_amended (b : Backend) (ps : List Nat) (i : Nat)
    (spec : LocSpec) (v : String) (domf : Nat → LocSpec → List Nat)
    (steps : List ScriptStep) (url : String) (dx dy : Int) :
    (execStep b ps i (ScriptStep.fillStep spec v)).1.take 3
        = [Event.pickCurrentPage ps.getLast?, Event.resolved spec (b.domAt i spec),
           Event.settleDelay 3000]
      ∧ (execStep b ps i (ScriptStep.clickStep spec)).1.take 3
        = [Event.pickCurrentPage ps.getLast?, Event.resolved spec (b.domAt i spec),
           Event.settleDelay 3000]
      ∧ execStep (succeedingBackend domf) ps i (ScriptStep.fillStep spec v)
        = ([Event.pickCurrentPage ps.getLast?, Event.resolved spec (1 :: domf i spec),
            Event.settleDelay 3000, Event.filled v 5000], none)
      ∧ execStep (succeedingBackend domf) ps i (ScriptStep.clickStep spec)
        = ([Event.pickCurrentPage ps.getLast?, Event.resolved spec (1 :: domf i spec),
            Event.settleDelay 3000, Event.clicked 5000], none)
      ∧ execStep b ps i (ScriptStep.gotoStep url)
        = ([Event.navigated url Milestone.load 10000, Event.slept 3], none)
      ∧ execStep b ps i (ScriptStep.wheelStep dx dy)
        = ([Event.wheeled dx dy], none)
      ∧ runSteps (succeedingBackend domf) ps i steps
        = (flatTrace (succeedingBackend domf) ps i steps, none) := by
  refine ⟨?_, ?_, ?_, ?_, rfl, rfl, runSteps_succeeding domf steps ps i⟩
  · by_cases h : locatorActionOk b i spec <;> simp [execStep, h]
  · by_cases h : locatorActionOk b i spec <;> simp [execStep, h]
  · simp [execStep, locatorActionOk, succeedingBackend]
  · simp [execStep, locatorActionOk, succeedingBackend]

/-- C8: locator resolution is total and uncached.  Against a backend whose
DOM matches nothing, resolution still occurs (the resolved event carries the
empty set) and is not itself an error; the step fails only afterwards, with
an ActionTimeout when the action's 5000 ms timeout expires.  Resolution is
always performed against the current page at execution time, and the same
locator spec used by two different steps is resolved independently, each
against the DOM at its own step index. -/
theorem locator_resolution_total_fresh (act : Nat → LocSpec → Bool) (b : Backend)
    (ps : List Nat) (i : Nat) (spec : LocSpec) (v : String)
    (domf : Nat → LocSpec → List Nat) :
    execStep ⟨fun _ _ => [], act⟩ ps i (ScriptStep.clickStep spec)
        = ([Event.pickCurrentPage ps.getLast?, Event.resolved spec [],
            Event.settleDelay 3000], some (StepError.actionTimeout spec 5000))
      ∧ execStep ⟨fun _ _ => [], act⟩ ps i (ScriptStep.fillStep spec v)
        = ([Event.pickCurrentPage ps.getLast?, Event.resolved spec [],
            Event.settleDelay 3000], some (StepError.actionTimeout spec 5000))
      ∧ Event.resolved spec (b.domAt i spec)
          ∈ (execStep b ps i (ScriptStep.clickStep spec)).1
      ∧ (runSteps (succeedingBackend domf) ps i
            [ScriptStep.clickStep spec, ScriptStep.clickStep spec]).1
        = [Event.pickCurrentPage ps.getLast?, Event.resolved spec (1 :: domf i spec),
           Event.settleDelay 3000, Event.clicked 5000,
           Event.pickCurrentPage ps.getLast?,
           Event.resolved spec (1 :: domf (i + 1) spec),
           Event.settleDelay 3000, Event.clicked 5000] := by
  refine ⟨?_, ?_, ?_, ?_⟩
  · simp [execStep, locatorActionOk]
  · simp [execStep, locatorActionOk]
  · by_cases h : locatorActionOk b i spec <;> simp [execStep, h]
  · simp [runSteps, flatTrace, execStep, stepPagesEffect, locatorActionOk,
      succeedingBackend]

theorem stepPagesEffect_id (s : ScriptStep) (ps : List Nat) :
    stepPagesEffect s ps = ps := by
  cases s <;> rfl

theorem pickedPages_append (l1 l2 : List Event) :
    pickedPages (l1 ++ l2) = pickedPages l1 ++ pickedPages l2 := by
  simp [pickedPages]

theorem pickedPages_execStep (b : Backend) (ps : List Nat) (i : Nat) (s : ScriptStep) :
    (pickedPages (execStep b ps i s).1).all (fun q => decide (q = ps.getLast?)) = true := by
  cases s with
  | fillStep spec v =>
    by_cases h : locatorActionOk b i spec <;> simp [execStep, h, pickedPages]
  | clickStep spec =>
    by_cases h : locatorActionOk b i spec <;> simp [execStep, h, pickedPages]
  | gotoStep url => simp [execStep, pickedPages]
  | wheelStep dx dy => simp [execStep, pickedPages]

theorem pickedPages_runSteps (b : Backend) :
    ∀ (steps : List ScriptStep) (ps : List Nat) (i : Nat),
      (pickedPages (runSteps b ps i steps).1).all (fun q => decide (q = ps.getLast?))
        = true := by
  intro steps
  induction steps with
  | nil => intro ps i; rfl
  | cons s rest ih =>
    intro ps i
    rcases hE : (execStep b ps i s).2 with _ | e
    · have hrec := ih ps (i + 1)
      have hchunk := pickedPages_execStep b ps i s
      simp only [runSteps, hE, stepPagesEffect_id]
      rw [pickedPages_append, List.all_append, hchunk, hrec]
      rfl
    · have hchunk := pickedPages_execStep b ps i s
      simp [runSteps, hE, hchunk]

/-- C9: exactly one page is created per scenario (the single new_page call of
the acquisition block) and no step opens another page or tab, so the page
list stays the singleton created at acquisition and every fresh read of the
current page (context.pages[-1], re-evaluated before each locator step)
yields that one page. -/
theorem single_page_invariant (b : Backend) (steps : List ScriptStep) (i p : Nat) :
    pagesAfter steps [p] = [p]
      ∧ (pickedPages (runSteps b [p] i steps).1).all (fun q => decide (q = some p))
        = true
      ∧ (acquire ⟨true, true, true, true⟩).2.1.count AcqEvent.newPage = 1 := by
  refine ⟨?_, ?_, by decide⟩
  · induction steps with
    | nil => rfl
    | cons s rest ih =>
      show pagesAfter rest (stepPagesEffect s [p]) = [p]
      rw [stepPagesEffect_id]
      exact ih
  · exact pickedPages_runSteps b steps [p] i

/-- C10: in the scenarios whose final assertion block is wrapped in a
try/except, only AssertionError is caught: a passing expect raises nothing,
a hard assertion failure is re-raised as a new AssertionError carrying the
fixed scenario-level message — the same message whatever the underlying
locator/timeout diagnostic was — and any non-AssertionError (e.g. a driver
error) propagates unchanged. -/
theorem wrapped_assert_catches_only_assertion_error (m d s : String) :
    guardedAssertBlock none s = none
      ∧ guardedAssertBlock (some (PyError.assertionError m)) s
        = some (PyError.assertionError s)
      ∧ guardedAssertBlock (some (PyError.driverError d)) s
        = some (PyError.driverError d)
      ∧ guardedAssertBlock (some (PyError.assertionError m)) s
        = guardedAssertBlock (some (PyError.assertionError "locator timeout diagnostic")) s := by
  exact ⟨rfl, rfl, rfl, rfl⟩

end NestTask
